import Mathlib

/-!
Verification of the nutrient aggregation and unit-normalization core of the
nutrix calorie/macro tracker.  Numbers are modelled by rationals; JavaScript
string operations are modelled over lists of characters so that every
definition evaluates by kernel reduction.
-/

namespace Nutrix

/-! ### JavaScript decimal rounding

Model of the source pattern Number(x.toFixed(1)) for nonnegative inputs:
round half away from zero at one decimal digit.  The floor is written the
way Mathlib states Rat.floor_def, which keeps it executable. -/

/-- Integer floor of a rational, executable form (num / den). -/
def ratFloorZ (q : ℚ) : ℤ := q.num / q.den

/-- Round a rational to one decimal place, models Number(x.toFixed(1))
for nonnegative x. -/
def round1 (q : ℚ) : ℚ := ((ratFloorZ (q * 10 + 1/2) : ℤ) : ℚ) / 10

/-! ### Progress-to-hue mapping

Two distinct implementations exist in the source.  The shared colour
utility clamps the percentage to the interval from 0 to 150; the copy
defined inside the dashboard component clamps to the interval from 0
to 200. -/

/-- Shared colour-utility hue function: clamp(pct, 0, 150); below 100 the
hue rises linearly to 120, above 100 it falls back to 0 at pct = 150. -/
def getHueForPct (pct : ℚ) : ℚ :=
  let maxOverPct : ℚ := 150
  let pct := max 0 (min maxOverPct pct)
  if pct ≤ 100 then pct / 100 * 120
  else (1 - (pct - 100) / (maxOverPct - 100)) * 120

namespace Dashboard

/-- Dashboard-local hue function: clamp(pct, 0, 200); below 100 the hue
rises linearly to 120, above 100 it falls back to 0 at pct = 200. -/
def getHueForPct (pct : ℚ) : ℚ :=
  let pct := max 0 (min 200 pct)
  if pct ≤ 100 then pct / 100 * 120
  else (1 - (pct - 100) / 100) * 120

end Dashboard

/-! ### Unit conversion (src/lib/unit-utils.ts) -/

/-- Nutrient vector: calories, protein, fats, carbohydrates. -/
structure Nutrient where
  calories : ℚ
  protein : ℚ
  fats : ℚ
  carbohydrates : ℚ
deriving DecidableEq, Repr

/-- Ingredient record from src/lib/types.ts.  Optional fields are Option;
a JavaScript undefined is none. -/
structure Ingredient where
  fdcId : ℕ
  description : String
  nutrients : Nutrient
  servingSize : Option ℚ := none
  servingUnit : Option String := none
  hasNaturalUnit : Option Bool := none
deriving DecidableEq, Repr

/-- The fixed vocabulary of countable serving units from unit-utils.ts. -/
def COUNTABLE_ITEMS : List String :=
  ["egg", "eggs", "piece", "pieces", "slice", "slices",
   "whole", "entire", "unit", "units", "item", "items"]

/-- 1 tablespoon is approximated as 15 grams. -/
def GRAMS_PER_TABLESPOON : ℚ := 15

/-- Lower-case a string character by character (JavaScript toLowerCase on
the ASCII labels used here). -/
def strLower (s : String) : String := String.mk (s.data.map Char.toLower)

/-- Substring containment on character lists (JavaScript includes). -/
def containsSub : List Char → List Char → Bool
  | [], sub => sub.isEmpty
  | h :: t, sub => sub.isPrefixOf (h :: t) || containsSub t sub

/-- JavaScript s.includes(sub). -/
def strIncludes (s sub : String) : Bool := containsSub s.data sub.data

/-- JavaScript truthiness of an optional number: undefined and 0 are falsy. -/
def truthyNum (o : Option ℚ) : Bool :=
  match o with
  | none => false
  | some q => q != 0

/-- JavaScript truthiness of an optional string: undefined and the empty
string are falsy. -/
def truthyStr (o : Option String) : Bool :=
  match o with
  | none => false
  | some s => s != ""

/-- shouldUseNaturalUnit: the serving unit is present (and truthy) and
contains one of the countable vocabulary words, case-insensitively. -/
def shouldUseNaturalUnit (ingredient : Ingredient) : Bool :=
  if !truthyStr ingredient.servingUnit then false
  else
    let unit := strLower (ingredient.servingUnit.getD "")
    COUNTABLE_ITEMS.any (fun item => strIncludes unit item)

/-- gramsToTablespoons: divide by 15 and round to one decimal. -/
def gramsToTablespoons (grams : ℚ) : ℚ :=
  round1 (grams / GRAMS_PER_TABLESPOON)

/-- tablespoonsToGrams: multiply by 15 and round to one decimal. -/
def tablespoonsToGrams (tablespoons : ℚ) : ℚ :=
  round1 (tablespoons * GRAMS_PER_TABLESPOON)

/-- convertToGrams: natural-unit branch first (when the ingredient is
countable and has a truthy serving size, the value is multiplied by the
serving size regardless of currentUnit), then the tablespoon branch,
otherwise the value is returned unchanged as grams. -/
def convertToGrams (value : ℚ) (ingredient : Ingredient) (currentUnit : String) : ℚ :=
  if shouldUseNaturalUnit ingredient && truthyNum ingredient.servingSize then
    value * ingredient.servingSize.getD 0
  else if currentUnit = "tbsp" || currentUnit = "tablespoons" then
    tablespoonsToGrams value
  else
    value

/-! ### Meal logging and daily statistics (meals module) -/

/-- The meal-log document constructed by logMeal before it is persisted. -/
structure MealData where
  userId : String
  recipeId : String
  recipeName : String
  mass : ℚ
  nutrients : Nutrient
  date : String
  createdAt : String
deriving DecidableEq, Repr

/-- The calendar-date prefix of an ISO timestamp: now.split(T)[0], i.e.
everything before the first letter T. -/
def dateFromTimestamp (now : String) : String :=
  String.mk (now.data.takeWhile (fun c => c != 'T'))

/-- logMeal: scales the per-100g nutrient vector by mass / 100 and stamps
the record with the current timestamp and its calendar-date prefix.  The
timestamp new Date().toISOString() is passed in as now; the Firestore
write around it is external I/O. -/
def logMeal (userId recipeId recipeName : String) (mass : ℚ)
    (nutrientsPer100g : Nutrient) (now : String) : MealData :=
  let multiplier := mass / 100
  let nutrients : Nutrient :=
    { calories := nutrientsPer100g.calories * multiplier
      protein := nutrientsPer100g.protein * multiplier
      fats := nutrientsPer100g.fats * multiplier
      carbohydrates := nutrientsPer100g.carbohydrates * multiplier }
  { userId := userId
    recipeId := recipeId
    recipeName := recipeName
    mass := mass
    nutrients := nutrients
    date := dateFromTimestamp now
    createdAt := now }

/-- Daily statistics record from src/lib/types.ts. -/
structure DailyStats where
  date : String
  totalCalories : ℚ
  totalProtein : ℚ
  totalFats : ℚ
  totalCarbohydrates : ℚ
  meals : List MealData
deriving DecidableEq, Repr

/-- One step of the forEach accumulation in getDailyStats. -/
def addMeal (stats : DailyStats) (meal : MealData) : DailyStats :=
  { stats with
    totalCalories := stats.totalCalories + meal.nutrients.calories
    totalProtein := stats.totalProtein + meal.nutrients.protein
    totalFats := stats.totalFats + meal.nutrients.fats
    totalCarbohydrates := stats.totalCarbohydrates + meal.nutrients.carbohydrates }

/-- getDailyStats: start from zero totals and add each fetched meal of the
day in order (the Firestore fetch is external; the meal list is passed in). -/
def getDailyStats (date : String) (meals : List MealData) : DailyStats :=
  meals.foldl addMeal
    { date := date
      totalCalories := 0
      totalProtein := 0
      totalFats := 0
      totalCarbohydrates := 0
      meals := meals }

/-- Modelled from the spec (section 4.2): scale returns each field of the
per-100g vector multiplied by massGrams / 100.  Used to compare the meal
logger against the specified single scaling primitive. -/
def specScale (perHundredGrams : Nutrient) (massGrams : ℚ) : Nutrient :=
  { calories := perHundredGrams.calories * (massGrams / 100)
    protein := perHundredGrams.protein * (massGrams / 100)
    fats := perHundredGrams.fats * (massGrams / 100)
    carbohydrates := perHundredGrams.carbohydrates * (massGrams / 100) }

/-! ### Serving-unit sanitization (RecipeForm.tsx)

The JavaScript string operations are modelled over character lists.  The
word boundaries of the regular expressions involved are modelled at
whitespace, which is where they fall on the space-separated unit labels
this function receives. -/

/-- JavaScript trim: drop whitespace from both ends. -/
def trimChars (l : List Char) : List Char :=
  ((l.dropWhile Char.isWhitespace).reverse.dropWhile Char.isWhitespace).reverse

/-- The leading placeholder tokens rejected by sanitizeServingUnit. -/
def placeholderTokens : List String :=
  ["undetermined", "unknown", "misc", "serving", "sample", "other"]

/-- One alternative of the anchored placeholder test: the token starts the
string and is followed by whitespace or the end of the string. -/
def placeholderMatch (t : List Char) (s : List Char) : Bool :=
  t.isPrefixOf s &&
    (match s.drop t.length with
     | [] => true
     | c :: _ => c.isWhitespace)

/-- Test of the anchored placeholder pattern against the cleaned label. -/
def isPlaceholder (s : List Char) : Bool :=
  placeholderTokens.any (fun t => placeholderMatch t.data s)

/-- Removal of a trailing technical code: whitespace followed by digits at
the end of the string, both nonempty, as one trailing match. -/
def stripTrailingCode (l : List Char) : List Char :=
  let r := l.reverse
  let digits := r.takeWhile Char.isDigit
  let rest := r.drop digits.length
  let spaces := rest.takeWhile Char.isWhitespace
  if !digits.isEmpty && !spaces.isEmpty then (rest.drop spaces.length).reverse
  else l

/-- Split a character list at space characters (JavaScript split with a
single-space separator). -/
def splitSpaces (l : List Char) : List (List Char) :=
  l.foldr
    (fun c acc =>
      if c = ' ' then [] :: acc
      else
        match acc with
        | [] => [[c]]
        | a :: as => (c :: a) :: as)
    [[]]

/-- Join space-separated tokens back together. -/
def joinSpaces : List (List Char) → List Char
  | [] => []
  | [a] => a
  | a :: rest => a ++ ' ' :: joinSpaces rest

/-- Global removal of the whole word undetermined: each space-separated
token equal to it is replaced by the empty token, as the regex replacement
leaves the surrounding spaces in place. -/
def removeUndetermined (l : List Char) : List Char :=
  joinSpaces ((splitSpaces l).map
    (fun t => if t = "undetermined".data then [] else t))

/-- JavaScript endsWith on character lists. -/
def endsList (l suffixChars : List Char) : Bool :=
  suffixChars.reverse.isPrefixOf l.reverse

/-- Capitalize the first character (charAt(0).toUpperCase() + slice(1)). -/
def capitalizeChars : List Char → List Char
  | [] => []
  | c :: rest => c.toUpper :: rest

/-- The countable nouns whose simple plural in s is singularized. -/
def singularNouns : List String := ["egg", "slice", "piece", "item"]

/-- sanitizeServingUnit from RecipeForm.tsx: trim and lower-case, reject
placeholder-led labels, strip trailing numeric codes and the word
undetermined, reject empty remainders, singularize (a label ending in es
loses both letters; one ending in s loses it only for the known countable
nouns), and title-case the result. -/
def sanitizeServingUnit (unit : Option String) : Option String :=
  match unit with
  | none => none
  | some u =>
    if u = "" then none
    else
      let cleaned := (trimChars u.data).map Char.toLower
      if isPlaceholder cleaned then none
      else
        let withoutCodes := trimChars (removeUndetermined (stripTrailingCode cleaned))
        if withoutCodes.isEmpty then none
        else
          let singular :=
            if endsList withoutCodes "es".data then withoutCodes.dropLast.dropLast
            else if endsList withoutCodes "s".data &&
                singularNouns.any (fun n => withoutCodes.dropLast = n.data) then
              withoutCodes.dropLast
            else withoutCodes
          some (String.mk (capitalizeChars singular))

/-! ### Streak update -/

/-- Streak fields of the user profile (src/lib/types.ts); dates are
modelled as day numbers so that consecutive days differ by one. -/
structure StreakState where
  currentStreak : ℕ
  longestStreak : ℕ
  lastStreakDate : Option ℕ
deriving DecidableEq, Repr

/-- Modelled from the spec: updateStreak (section 4.5) has no
implementation under src/ — only the StreakState fields in types.ts and
read-only consumers of them exist there.  Same-day calls return the state
unchanged; otherwise the current streak is incremented on a consecutive
goal-met day, reset to 1 on a non-consecutive goal-met day, and reset to 0
on a missed day; the longest streak and last streak date are then
updated. -/
def updateStreak (state : StreakState) (today : ℕ) (goalsMetToday : Bool) : StreakState :=
  if state.lastStreakDate = some today then state
  else
    let current : ℕ :=
      if goalsMetToday then
        if state.lastStreakDate = some (today - 1) then state.currentStreak + 1
        else 1
      else 0
    { currentStreak := current
      longestStreak := max state.longestStreak current
      lastStreakDate := some today }

/-! ## Helper lemmas -/

/-- The executable floor agrees with the mathematical floor. -/
theorem ratFloorZ_eq_floor (q : ℚ) : ratFloorZ q = ⌊q⌋ := Rat.floor_def.symm

/-- Floor of an integer plus one half. -/
theorem floor_add_half (n : ℤ) : ⌊(n : ℚ) + 1/2⌋ = n := by
  rw [Int.floor_eq_iff]
  constructor
  · linarith
  · rw [show ((n:ℚ) + 1) = ((n+1 : ℤ) : ℚ) by push_cast; ring]
    push_cast
    linarith

/-- Folding addMeal over a meal list adds the field-wise sums of the
nutrient vectors to the accumulator. -/
theorem foldl_addMeal (meals : List MealData) (st : DailyStats) :
    meals.foldl addMeal st =
      { st with
        totalCalories := st.totalCalories + (meals.map fun m => m.nutrients.calories).sum
        totalProtein := st.totalProtein + (meals.map fun m => m.nutrients.protein).sum
        totalFats := st.totalFats + (meals.map fun m => m.nutrients.fats).sum
        totalCarbohydrates :=
          st.totalCarbohydrates + (meals.map fun m => m.nutrients.carbohydrates).sum } := by
  induction meals generalizing st with
  | nil => simp
  | cons m ms ih => simp [List.foldl_cons, ih, addMeal, add_assoc]

/-! ## Claims -/

/-- C1 (counterexample): the shared colour-utility hue function returns 0,
not 60, at 150 percent, because it clamps the percentage to the interval
from 0 to 150. -/
theorem sharedHueAt150_counterexample : getHueForPct 150 = 0 ∧ (0 : ℚ) ≠ 60 := by
  constructor
  · norm_num [getHueForPct]
  · norm_num

/-- C1 (amended): the dashboard-local hue function satisfies all four
boundary values (hue 0 at 0, 120 at 100, 0 at 200, 60 at 150); the shared
colour-utility hue function satisfies hue 0 at 0, 120 at 100 and 0 at 200,
but its hue at 150 is 0 rather than 60 since it clamps to 150. -/
theorem hueBoundaryValues_amended :
    Dashboard.getHueForPct 0 = 0 ∧ Dashboard.getHueForPct 100 = 120 ∧
      Dashboard.getHueForPct 200 = 0 ∧ Dashboard.getHueForPct 150 = 60 ∧
      getHueForPct 0 = 0 ∧ getHueForPct 100 = 120 ∧
      getHueForPct 200 = 0 ∧ getHueForPct 150 = 0 :=
  ⟨by norm_num [Dashboard.getHueForPct], by norm_num [Dashboard.getHueForPct],
   by norm_num [Dashboard.getHueForPct], by norm_num [Dashboard.getHueForPct],
   by norm_num [getHueForPct], by norm_num [getHueForPct],
   by norm_num [getHueForPct], by norm_num [getHueForPct]⟩

/-- C2 (counterexample): the shared colour-utility hue function and the
dashboard-local hue function disagree at 150 percent (0 versus 60). -/
theorem hueFunctionsDiffer_counterexample :
    getHueForPct 150 ≠ Dashboard.getHueForPct 150 := by
  norm_num [getHueForPct, Dashboard.getHueForPct]

/-- C2 (amended): the two hue functions agree on every percentage at most
100 and on every percentage at least 200, but not in between. -/
theorem hueFunctionsAgreeOutsideOverrange (pct : ℚ) (h : pct ≤ 100 ∨ 200 ≤ pct) :
    getHueForPct pct = Dashboard.getHueForPct pct := by
  rcases h with h | h
  · simp only [getHueForPct, Dashboard.getHueForPct]
    rw [min_eq_right (by linarith : pct ≤ (150:ℚ)),
        min_eq_right (by linarith : pct ≤ (200:ℚ))]
    have hm : max 0 pct ≤ 100 := by
      rcases le_or_lt 0 pct with h0 | h0
      · rw [max_eq_right h0]; exact h
      · rw [max_eq_left h0.le]; linarith
    rw [if_pos hm, if_pos hm]
  · simp only [getHueForPct, Dashboard.getHueForPct]
    rw [min_eq_left (by linarith : (150:ℚ) ≤ pct),
        min_eq_left (by linarith : (200:ℚ) ≤ pct)]
    norm_num

/-- C2 (witness): the agreement theorem applied at 50 percent. -/
theorem hueFunctionsAgreeOutsideOverrange_witness :
    getHueForPct 50 = Dashboard.getHueForPct 50 :=
  hueFunctionsAgreeOutsideOverrange 50 (Or.inl (by norm_num))

/-- C3 (counterexample): converting 2 of a countable-unit ingredient with
no serving size silently returns 2 as the gram mass; no error is raised
(convertToGrams is total and has no error path). -/
theorem naturalNoServing_counterexample :
    shouldUseNaturalUnit ⟨1, "egg", ⟨155, 13, 11, 1⟩, none, some "egg", none⟩ = true ∧
      convertToGrams 2 ⟨1, "egg", ⟨155, 13, 11, 1⟩, none, some "egg", none⟩ "egg" = 2 := by
  constructor
  · decide
  · rw [convertToGrams, if_neg (by decide), if_neg (by decide)]

/-- C3 (amended): when the ingredient uses a natural unit but has no
serving size, convertToGrams falls through without error: a tablespoon
unit converts at 15 g per tablespoon and any other unit returns the value
unchanged, interpreted as grams. -/
theorem naturalNoServingFallsThrough (v : ℚ) (ing : Ingredient) (u : String)
    (h1 : shouldUseNaturalUnit ing = true) (h2 : ing.servingSize = none) :
    convertToGrams v ing u =
      if u = "tbsp" ∨ u = "tablespoons" then tablespoonsToGrams v else v := by
  simp [convertToGrams, h1, h2, truthyNum]

/-- C3 (witness): the fall-through theorem applied to a countable egg
ingredient without a serving size. -/
theorem naturalNoServingFallsThrough_witness :
    convertToGrams 2 ⟨1, "egg", ⟨155, 13, 11, 1⟩, none, some "egg", none⟩ "egg" = 2 := by
  have h := naturalNoServingFallsThrough 2
    ⟨1, "egg", ⟨155, 13, 11, 1⟩, none, some "egg", none⟩ "egg" (by decide) rfl
  simpa using h

/-- C4 (counterexample): for a countable ingredient with a serving size,
convertToGrams with the grams unit does not return the value unchanged:
the natural-unit branch fires first and multiplies by the serving size. -/
theorem gramsUnitOverridden_counterexample :
    convertToGrams 2 ⟨1, "egg", ⟨155, 13, 11, 1⟩, some 50, some "egg", none⟩ "g" = 100 ∧
      (100 : ℚ) ≠ 2 := by
  constructor
  · rw [convertToGrams, if_pos (by decide)]
    norm_num
  · norm_num

/-- C4 (amended): converting with the grams unit returns the value
unchanged for every ingredient whose natural-unit branch does not fire,
i.e. whenever the ingredient is not countable or its serving size is
absent or zero. -/
theorem gramsUnitIdentity (v : ℚ) (ing : Ingredient)
    (h : (shouldUseNaturalUnit ing && truthyNum ing.servingSize) = false) :
    convertToGrams v ing "g" = v := by
  simp [convertToGrams, h]

/-- C4 (witness): the grams-identity theorem applied to a plain
non-countable ingredient. -/
theorem gramsUnitIdentity_witness :
    convertToGrams 7 ⟨2, "flour", ⟨364, 10, 1, 76⟩, none, none, none⟩ "g" = 7 :=
  gramsUnitIdentity 7 ⟨2, "flour", ⟨364, 10, 1, 76⟩, none, none, none⟩ (by decide)

/-- C5 (counterexample): the tablespoon round trip is not the identity for
every nonnegative amount: 0.02 tablespoons becomes 0.3 grams, which
converts back to 0.0 tablespoons because both directions round to one
decimal place. -/
theorem roundTrip_counterexample :
    (0 : ℚ) ≤ 1/50 ∧
      gramsToTablespoons (tablespoonsToGrams (1/50)) = 0 ∧ (0 : ℚ) ≠ 1/50 := by
  refine ⟨by norm_num, ?_, by norm_num⟩
  rw [tablespoonsToGrams, gramsToTablespoons, GRAMS_PER_TABLESPOON, round1, round1,
    ratFloorZ_eq_floor, ratFloorZ_eq_floor]
  norm_num

/-- C5 (amended): the tablespoon round trip returns the original amount
for every nonnegative amount that is a whole multiple of 0.1 tablespoons,
the precision both conversions round to. -/
theorem roundTripTenths (k : ℕ) :
    gramsToTablespoons (tablespoonsToGrams ((k : ℚ) / 10)) = (k : ℚ) / 10 := by
  have h1 : ((k : ℚ) / 10 * GRAMS_PER_TABLESPOON) * 10 + 1/2
      = ((15 * (k:ℤ) : ℤ) : ℚ) + 1/2 := by
    rw [GRAMS_PER_TABLESPOON]; push_cast; ring
  have h2 : tablespoonsToGrams ((k : ℚ) / 10) = ((15 * (k : ℤ) : ℤ) : ℚ) / 10 := by
    rw [tablespoonsToGrams, round1, ratFloorZ_eq_floor, h1, floor_add_half]
  rw [h2, gramsToTablespoons, round1, ratFloorZ_eq_floor, GRAMS_PER_TABLESPOON]
  have h3 : ((15 * (k : ℤ) : ℤ) : ℚ) / 10 / 15 * 10 + 1/2 = ((k : ℤ) : ℚ) + 1/2 := by
    push_cast; ring
  rw [h3, floor_add_half]
  push_cast
  ring

/-- C6: the nutrient vector snapshotted by logMeal is the per-100g vector
with each field multiplied by mass / 100 (the specified scale primitive);
in particular mass 150 of the vector 200, 10, 5, 20 yields
300, 15, 7.5, 30. -/
theorem logMealScalesNutrients :
    (∀ u r n now per mass, (logMeal u r n mass per now).nutrients = specScale per mass) ∧
      (logMeal "user" "recipe" "name" 150 ⟨200, 10, 5, 20⟩
        "2024-01-06T12:30:00.000Z").nutrients = ⟨300, 15, 15/2, 30⟩ := by
  constructor
  · intro u r n now per mass
    rfl
  · simp only [logMeal]
    norm_num

/-- C7: for every meal list the daily statistics totals are the field-wise
sums of the entries' snapshotted nutrient vectors, and for the empty list
the totals are the zero vector; getDailyStats takes no recipe input, so no
nutrient is re-derived from any recipe. -/
theorem dailyStatsSumsNutrients (date : String) (meals : List MealData) :
    (getDailyStats date meals).totalCalories
        = (meals.map fun m => m.nutrients.calories).sum ∧
      (getDailyStats date meals).totalProtein
        = (meals.map fun m => m.nutrients.protein).sum ∧
      (getDailyStats date meals).totalFats
        = (meals.map fun m => m.nutrients.fats).sum ∧
      (getDailyStats date meals).totalCarbohydrates
        = (meals.map fun m => m.nutrients.carbohydrates).sum ∧
      getDailyStats date [] = ⟨date, 0, 0, 0, 0, []⟩ := by
  refine ⟨?_, ?_, ?_, ?_, ?_⟩ <;> simp [getDailyStats, foldl_addMeal]

/-- C8: evaluation of sanitizeServingUnit at the claimed inputs: the
plural eggs is correctly singularized and title-cased, the placeholders
serving and undetermined are rejected, but slices and pieces lose their
final two letters and come back as Slic and Piec, contradicting the
intended singular forms Slice and Piece stated in the code's own comment
(the branch for a label ending in es drops two letters instead of one). -/
theorem sanitizeServingUnit_eval :
    sanitizeServingUnit (some "eggs") = some "Egg" ∧
      sanitizeServingUnit (some "slices") = some "Slic" ∧
      sanitizeServingUnit (some "pieces") = some "Piec" ∧
      sanitizeServingUnit (some "serving") = none ∧
      sanitizeServingUnit (some "undetermined") = none := by
  refine ⟨?_, ?_, ?_, ?_, ?_⟩ <;> decide

/-- C9: updateStreak applied twice with the same day and goals met both
times yields the same state as applying it once (same-day re-invocation
returns the state unchanged).  The operation is modelled from the spec
since no implementation exists under src. -/
theorem updateStreak_idempotent (s : StreakState) (today : ℕ) :
    updateStreak (updateStreak s today true) today true = updateStreak s today true := by
  by_cases h : s.lastStreakDate = some today
  · simp [updateStreak, h]
  · simp [updateStreak, h]

/-- C10: every meal-log record built by logMeal has its date field equal
to the calendar-date prefix of its own createdAt timestamp; logMeal takes
no date argument, so a caller cannot attribute the record to another
calendar day.  Concretely a timestamp of 2024-01-06T12:30:00.000Z stamps
the date 2024-01-06. -/
theorem logMealDateMatchesCreatedAt (u r n now : String) (mass : ℚ) (per : Nutrient) :
    (logMeal u r n mass per now).date
        = dateFromTimestamp ((logMeal u r n mass per now).createdAt) ∧
      (logMeal u r n mass per "2024-01-06T12:30:00.000Z").date = "2024-01-06" := by
  constructor
  · rfl
  · show dateFromTimestamp "2024-01-06T12:30:00.000Z" = "2024-01-06"
    decide

end Nutrix
